import Mathlib

/-!
Shallow embedding of the session-scoped real-time relay and its HTTP
collaborators from the Virtual Conference Translator and Summarizer
repository.

Embedded source parts:
- the Socket.IO connection handler of backend server.js
  (the block appended to frontend components/LanguageSelector.js,
  lines 168 to 196): join-session, caption-update, chat-message,
  summary-update and disconnect handlers;
- backend routes/sessions.js POST /:id/join (lines 83 to 117);
- backend routes/transcripts.js POST /summaries (lines 116 to 174);
- backend services/geminiService.js (generateSummary and translateText).

Machine model of Socket.IO used here: each socket is named by an id
string; `socket.join(room)` inserts the id into the room member set,
without removing the socket from any other room; sockets are removed
from every room on disconnect; `socket.to(room).emit(name, data)`
delivers the event to every socket currently in `room` except the
emitting socket itself. Events whose name has no registered handler are
dropped by the server.
-/

namespace VCT

/-- A client event payload as the handlers see it. The server only ever
reads the `sessionId` field; `timestamp` and `body` stand for the rest
of the structured data, carried along unchanged. -/
structure Payload where
  sessionId : String
  timestamp : Nat
  body : String
deriving DecidableEq, Repr

/-- One outbound delivery produced by the relay: receiving socket,
event name, forwarded data. -/
structure Delivery where
  target : String
  event : String
  data : Payload
deriving DecidableEq, Repr

/-- Relay state: for each room (session) id, the list of member socket
ids. Socket.IO rooms are sets; insertion below never duplicates. -/
structure RelayState where
  rooms : String → List String

/-- The inbound socket events a client can send, named after the event
strings of the source. `disconnect` is the transport-close event. -/
inductive ClientEvent where
  | joinSession (sessionId : String)
  | leaveSession (sessionId : String)
  | captionUpdate (data : Payload)
  | chatMessage (data : Payload)
  | typing (data : Payload)
  | summaryUpdate (data : Payload)
  | disconnect
deriving DecidableEq, Repr

/-- Set-insertion of a socket id into a member list: the Socket.IO
semantics of `socket.join` on one room. -/
def joinRoom (c : String) (l : List String) : List String :=
  if c ∈ l then l else c :: l

/-- `socket.to(data.sessionId).emit(name, data)`: one delivery of the
unchanged data to every member of the room named in the payload,
except the sender. -/
def broadcast (st : RelayState) (sender : String) (name : String) (d : Payload) :
    List Delivery :=
  ((st.rooms d.sessionId).filter (fun t => t != sender)).map
    (fun t => Delivery.mk t name d)

/-- The io.on connection handler of server.js, lines 168 to 196, as a
step function: given the relay state, the id of the socket the event
arrived on, and the event, produce the next state and the outbound
deliveries. Only join-session, caption-update, chat-message,
summary-update and disconnect have registered handlers; every other
event name (in particular leave-session and typing) is dropped. -/
def handleEvent (st : RelayState) (sender : String) (ev : ClientEvent) :
    RelayState × List Delivery :=
  match ev with
  | .joinSession sid =>
      (RelayState.mk (fun r => if r = sid then joinRoom sender (st.rooms r) else st.rooms r), [])
  | .leaveSession _ => (st, [])
  | .captionUpdate d => (st, broadcast st sender "caption-update" d)
  | .chatMessage d => (st, broadcast st sender "chat-message" d)
  | .typing _ => (st, [])
  | .summaryUpdate d => (st, broadcast st sender "summary-update" d)
  | .disconnect =>
      (RelayState.mk (fun r => (st.rooms r).filter (fun t => t != sender)), [])

/-- The three domain event kinds the server actually rebroadcasts. -/
inductive DomainKind where
  | caption
  | chat
  | summary
deriving DecidableEq, Repr

/-- The client event of each rebroadcast kind. -/
def kindEvent : DomainKind → Payload → ClientEvent
  | .caption, d => ClientEvent.captionUpdate d
  | .chat, d => ClientEvent.chatMessage d
  | .summary, d => ClientEvent.summaryUpdate d

/-- The wire name of each rebroadcast kind. -/
def kindName : DomainKind → String
  | .caption => "caption-update"
  | .chat => "chat-message"
  | .summary => "summary-update"

/-- The join-session handler seen together with the session store: the
handler body is `socket.join(sessionId)` alone, so the `active`
predicate (what the Session Lifecycle Bridge would report) is never
consulted. -/
def socketJoin (active : String → Bool) (st : RelayState) (c sid : String) : RelayState :=
  (handleEvent st c (ClientEvent.joinSession sid)).1

/-- One row of the sessions table, restricted to the columns the
embedded routes read. -/
structure SessionRow where
  id : String
  hostId : String
  status : String
deriving DecidableEq, Repr

/-- One row of the summaries table, restricted to the columns the
embedded route writes. -/
structure SummaryRow where
  sessionId : String
  summaryType : String
  content : String
  keyPoints : List String
  actionItems : List String
deriving DecidableEq, Repr

/-- Database state for the embedded routes: sessions, the
session_participants pairs (session id, user id), the transcripts
pairs (session id, text) in timestamp order, and the summaries. -/
structure DbState where
  sessions : List SessionRow
  participants : List (String × String)
  transcripts : List (String × String)
  summaries : List SummaryRow
deriving DecidableEq, Repr

/-- Rows of SELECT from sessions WHERE id equals sid AND status equals
active (routes/sessions.js line 89). -/
def activeSessionRows (db : DbState) (sid : String) : List SessionRow :=
  db.sessions.filter (fun s => s.id == sid && s.status == "active")

/-- POST /:id/join of routes/sessions.js, lines 83 to 117: 404 when no
active session row exists, 400 when the user is already a participant,
otherwise insert the participant row and answer 200. The result is the
new database state, the HTTP status, and the response message. -/
def postJoin (db : DbState) (sid uid : String) : DbState × Nat × String :=
  if (activeSessionRows db sid).length = 0 then
    (db, 404, "Session not found or not active")
  else if 0 < (db.participants.filter (fun p => p.1 == sid && p.2 == uid)).length then
    (db, 400, "Already joined this session")
  else
    ({ db with participants := db.participants ++ [(sid, uid)] }, 200, "Successfully joined session")

/-- Rows of the access query of routes/transcripts.js: sessions s with
s.id equal to the requested id and the requester either its host or a
participant of it. -/
def accessRows (db : DbState) (sid uid : String) : List SessionRow :=
  db.sessions.filter (fun s =>
    s.id == sid &&
      (s.hostId == uid || db.participants.any (fun p => p.1 == s.id && p.2 == uid)))

/-- Texts of the stored transcripts of a session, in stored order
(SELECT text FROM transcripts WHERE session_id equals sid). -/
def sessionTranscripts (db : DbState) (sid : String) : List String :=
  (db.transcripts.filter (fun p => p.1 == sid)).map (fun p => p.2)

/-- Result object of GeminiService.generateSummary. -/
structure Summary where
  content : String
  keyPoints : List String
  actionItems : List String
deriving DecidableEq, Repr

/-- Character-list splitter behind strSplit: cut the list at every
character satisfying the predicate, keeping empty fragments, exactly
as a single-character JavaScript split does. -/
def splitCharList (p : Char → Bool) : List Char → List (List Char)
  | [] => [[]]
  | c :: cs =>
    match splitCharList p cs with
    | [] => if p c then [[], []] else [[c]]
    | w :: ws => if p c then [] :: w :: ws else (c :: w) :: ws

/-- The JavaScript String.split against a character class, as a
structurally recursive function on the character list. -/
def strSplit (p : Char → Bool) (s : String) : List String :=
  (splitCharList p s.data).map (fun w => String.mk w)

/-- The JavaScript String.trim: drop whitespace from both ends. -/
def strTrim (s : String) : String :=
  String.mk (((s.data.dropWhile Char.isWhitespace).reverse.dropWhile Char.isWhitespace).reverse)

/-- The word list of generateSummary:
conversationText.split on whitespace, keeping words of length above 2.
The JavaScript split on a run of whitespace and the per-character
split used here differ only in empty fragments, which the length
filter removes on both sides. -/
def jsWords (conversationText : String) : List String :=
  (strSplit Char.isWhitespace conversationText).filter (fun w => w.length > 2)

/-- Split on the sentence ending characters, as the key_points branch
does; again the run-based JavaScript split differs only in empty
fragments, removed by the trimmed-length filter that follows. -/
def sentenceSplit (s : String) : List String :=
  strSplit (fun c => c == '.' || c == '!' || c == '?') s

/-- GeminiService.generateSummary, lines 65 to 101 of
services/geminiService.js. The `model` argument stands for the
external generative model (prompt in, response out); the source body
of this method never invokes it, computing the summary locally from
the transcripts instead. -/
def generateSummary (model : String → String) (transcripts : List String)
    (summaryType : String) : Summary :=
  let conversationText := String.intercalate " " transcripts
  let words := jsWords conversationText
  if summaryType == "key_points" then
    let phrases := (sentenceSplit conversationText).filter (fun p => (strTrim p).length > 10)
    let keyPoints := (phrases.take 5).map strTrim
    { content := "Key points discussed: " ++ String.intercalate ". " keyPoints ++ ".",
      keyPoints := keyPoints,
      actionItems := [] }
  else if summaryType == "final" then
    let selectedWords := ((words.enum.filter (fun p => p.1 % 3 == 0)).map (fun p => p.2)).take 20
    { content := "The discussion covered " ++ String.intercalate ", " selectedWords ++
        ". Key topics included advancements and implementations. Conclusions focused on challenges and solutions.",
      keyPoints := [],
      actionItems := ["Follow up on implementation details", "Schedule next meeting"] }
  else
    let recentWords := words.drop (words.length - 15)
    { content := "Recent developments: " ++ String.intercalate " " recentWords ++
        ". The conversation is progressing well.",
      keyPoints := [],
      actionItems := [] }

/-- GeminiService.translateText: builds one prompt, forwards it to the
external model, returns the trimmed response. -/
def translateText (model : String → String) (text targetLanguage sourceLanguage : String) :
    String :=
  strTrim (model ("Translate the following text to " ++ targetLanguage ++ ". Source language: " ++
    sourceLanguage ++ ". Text: \"" ++ text ++ "\""))

/-- The five built-in mock transcripts of routes/transcripts.js,
lines 146 to 152. -/
def mockTranscripts : List String :=
  ["Welcome to our virtual conference session. Today we will be discussing the latest advancements in AI technology.",
   "The first topic is machine learning algorithms and their applications in business processes.",
   "Participants are sharing their experiences with implementing AI solutions in various industries.",
   "Key challenges include data quality, integration with existing systems, and ethical considerations.",
   "The discussion is progressing well with good engagement from all attendees."]

/-- POST /summaries of routes/transcripts.js, lines 116 to 174: 403
without access; otherwise fetch the transcripts of the session,
substitute the mock transcripts when none are stored, generate the
summary, insert the summary row, answer 201 with the created row. -/
def postSummaries (model : String → String) (db : DbState) (uid sid summaryType : String) :
    DbState × Nat × Option SummaryRow :=
  if (accessRows db sid uid).length = 0 then
    (db, 403, none)
  else
    let stored := sessionTranscripts db sid
    let ts := if stored.length = 0 then mockTranscripts else stored
    let sd := generateSummary model ts summaryType
    let row : SummaryRow := SummaryRow.mk sid summaryType sd.content sd.keyPoints sd.actionItems
    ({ db with summaries := db.summaries ++ [row] }, 201, some row)

/-- A concrete relay state: room sess-1 with members c1 and c2. -/
def demoRooms : RelayState :=
  RelayState.mk (fun r => if r = "sess-1" then ["c1", "c2"] else [])

/-- A concrete payload addressed to room sess-1. -/
def demoPayload : Payload :=
  Payload.mk "sess-1" 5 "hi"

/-- The relay state reached from the empty state when c1 joins r1 and
then joins r2. -/
def twoJoinsState : RelayState :=
  (handleEvent (handleEvent (RelayState.mk (fun _ => [])) "c1" (ClientEvent.joinSession "r1")).1
    "c1" (ClientEvent.joinSession "r2")).1

/-- A concrete database: one active session s1 hosted by u1, no
participants, no transcripts, no summaries. -/
def demoDb : DbState :=
  DbState.mk [SessionRow.mk "s1" "u1" "active"] [] [] []

/-- Like demoDb, but u1 is already a participant of s1. -/
def demoDbJoined : DbState :=
  DbState.mk [SessionRow.mk "s1" "u1" "active"] [("s1", "u1")] [] []

/-! Helper lemmas shared by the claims. -/

/-- All three rebroadcast kinds leave the state unchanged and produce
the broadcast of the unchanged payload under the kind name. -/
theorem handleEvent_kind (k : DomainKind) (st : RelayState) (sender : String) (d : Payload) :
    handleEvent st sender (kindEvent k d) = (st, broadcast st sender (kindName k) d) := by
  cases k <;> rfl

/-- Membership characterization of a broadcast delivery list. -/
theorem mem_broadcast (st : RelayState) (sender name : String) (d : Payload) (dv : Delivery) :
    dv ∈ broadcast st sender name d ↔
      dv.target ∈ st.rooms d.sessionId ∧ dv.target ≠ sender ∧ dv.event = name ∧ dv.data = d := by
  unfold broadcast
  constructor
  · intro h
    rcases List.mem_map.mp h with ⟨t, ht, rfl⟩
    rcases List.mem_filter.mp ht with ⟨htm, hne⟩
    exact ⟨htm, by simpa using hne, rfl, rfl⟩
  · rintro ⟨hm, hne, hev, hda⟩
    cases dv with
    | mk tgt evn dat =>
      simp only at hev hda hm hne
      subst hev
      subst hda
      exact List.mem_map.mpr ⟨tgt, List.mem_filter.mpr ⟨hm, by simpa using hne⟩, rfl⟩

/-- joinRoom puts the joined id into the member list. -/
theorem mem_joinRoom_self (c : String) (l : List String) : c ∈ joinRoom c l := by
  unfold joinRoom
  split
  · assumption
  · exact List.mem_cons_self c l

/-- joinRoom keeps every id already in the member list. -/
theorem mem_joinRoom_of_mem (x c : String) (l : List String) (h : x ∈ l) :
    x ∈ joinRoom c l := by
  unfold joinRoom
  split
  · exact h
  · exact List.mem_cons_of_mem c h

/-- joinRoom twice equals joinRoom once. -/
theorem joinRoom_idem (c : String) (l : List String) :
    joinRoom c (joinRoom c l) = joinRoom c l := by
  by_cases h : c ∈ l
  · simp [joinRoom, h]
  · simp [joinRoom, h]

/-- A fresh member appears exactly once after joinRoom. -/
theorem count_joinRoom_self (c : String) (l : List String) (h : c ∉ l) :
    (joinRoom c l).count c = 1 := by
  unfold joinRoom
  rw [if_neg h]
  simp [List.count_cons, List.count_eq_zero.mpr h]

/-- Rooms of the state after a join, room by room. -/
theorem joinState_rooms (st : RelayState) (c sid r : String) :
    ((handleEvent st c (ClientEvent.joinSession sid)).1).rooms r =
      if r = sid then joinRoom c (st.rooms r) else st.rooms r := rfl

/-! Claims. -/

/-- Claim C1: for each of the three rebroadcast kinds (caption-update,
chat-message, summary-update), every delivery goes to a member of the
room named in the event other than the sender, and every such other
member receives the event; the sending connection itself never does. -/
theorem publish_no_self_echo (k : DomainKind) (st : RelayState) (sender : String) (d : Payload) :
    (∀ dv ∈ (handleEvent st sender (kindEvent k d)).2, dv.target ≠ sender) ∧
    (∀ m ∈ st.rooms d.sessionId, m ≠ sender →
      Delivery.mk m (kindName k) d ∈ (handleEvent st sender (kindEvent k d)).2) := by
  rw [handleEvent_kind]
  constructor
  · intro dv hdv
    exact ((mem_broadcast st sender (kindName k) d dv).mp hdv).2.1
  · intro m hm hne
    exact (mem_broadcast st sender (kindName k) d (Delivery.mk m (kindName k) d)).mpr
      ⟨hm, hne, rfl, rfl⟩

/-- Claim C1 witness: with c1 and c2 in sess-1, a chat-message from c1
is delivered to c2. -/
theorem publish_no_self_echo_witness :
    Delivery.mk "c2" "chat-message" demoPayload ∈
      (handleEvent demoRooms "c1" (kindEvent DomainKind.chat demoPayload)).2 :=
  (publish_no_self_echo DomainKind.chat demoRooms "c1" demoPayload).2 "c2"
    (by decide) (by decide)

/-- Claim C2 counterexample: with a session store reporting every
session inactive, the socket level join still adds the connection to
the room, instead of failing. -/
theorem socket_join_ignores_sessions_cex :
    "c1" ∈ (socketJoin (fun _ => false) (RelayState.mk (fun _ => [])) "c1" "r1").rooms "r1" := by
  decide

/-- Claim C2 amended: the socket level join adds the connection to the
room unconditionally, whatever the session store reports; the session
existence and activity check lives only in the HTTP join endpoint,
which answers 404 and leaves the participant table unchanged when no
active session row exists. -/
theorem join_validation_split (active : String → Bool) (st : RelayState) (c sid : String)
    (db : DbState) (s uid : String) (h : activeSessionRows db s = []) :
    c ∈ (socketJoin active st c sid).rooms sid ∧
    postJoin db s uid = (db, 404, "Session not found or not active") := by
  constructor
  · show c ∈ (if sid = sid then joinRoom c (st.rooms sid) else st.rooms sid)
    rw [if_pos rfl]
    exact mem_joinRoom_self c (st.rooms sid)
  · unfold postJoin
    rw [h]
    rfl

/-- Claim C2 witness: a join against an inactive store still succeeds
at the socket level, and the HTTP join of an empty database is 404. -/
theorem join_validation_split_witness :
    "c1" ∈ (socketJoin (fun _ => false) (RelayState.mk (fun _ => [])) "c1" "s1").rooms "s1" ∧
    postJoin (DbState.mk [] [] [] []) "s1" "u1" =
      (DbState.mk [] [] [] [], 404, "Session not found or not active") :=
  join_validation_split (fun _ => false) (RelayState.mk (fun _ => [])) "c1" "s1"
    (DbState.mk [] [] [] []) "s1" "u1" (by decide)

/-- Claim C3 counterexample: starting from the empty state, after c1
joins r1 and then joins r2, c1 is a member of both rooms — the second
join does not replace the first membership. -/
theorem multi_room_membership_cex :
    "c1" ∈ twoJoinsState.rooms "r1" ∧ "c1" ∈ twoJoinsState.rooms "r2" := by
  decide

/-- Claim C3 amended: a connection can be a member of several rooms at
once: joining a room adds membership there and preserves every prior
membership. -/
theorem join_preserves_prior_membership (st : RelayState) (c r1 r2 : String)
    (h : c ∈ st.rooms r1) :
    c ∈ ((handleEvent st c (ClientEvent.joinSession r2)).1).rooms r1 ∧
    c ∈ ((handleEvent st c (ClientEvent.joinSession r2)).1).rooms r2 := by
  constructor
  · rw [joinState_rooms]
    split
    · exact mem_joinRoom_of_mem c c (st.rooms r1) h
    · exact h
  · rw [joinState_rooms, if_pos rfl]
    exact mem_joinRoom_self c (st.rooms r2)

/-- Claim C3 witness: with c1 in r1, joining r2 keeps the r1
membership and adds the r2 membership. -/
theorem join_preserves_prior_membership_witness :
    "c1" ∈ ((handleEvent (RelayState.mk (fun r => if r = "r1" then ["c1"] else [])) "c1"
      (ClientEvent.joinSession "r2")).1).rooms "r1" ∧
    "c1" ∈ ((handleEvent (RelayState.mk (fun r => if r = "r1" then ["c1"] else [])) "c1"
      (ClientEvent.joinSession "r2")).1).rooms "r2" :=
  join_preserves_prior_membership (RelayState.mk (fun r => if r = "r1" then ["c1"] else []))
    "c1" "r1" "r2" (by decide)

/-- Claim C4: the server registers no leave-session handler, so the
event changes nothing at all: no member is removed from any room, no
room is destroyed, and no delivery is produced — the sender remains a
member and keeps receiving the broadcasts of the room. -/
theorem leave_session_is_dropped (st : RelayState) (c sid : String) :
    handleEvent st c (ClientEvent.leaveSession sid) = (st, []) := rfl

/-- Claim C5 counterexample: at the HTTP layer, the second join of the
same user to the same session is rejected with a 400 error response
rather than succeeding as a no-op (the participant table is unchanged
though). -/
theorem duplicate_join_http_error_cex :
    (postJoin (postJoin demoDb "s1" "u1").1 "s1" "u1").2 =
      (400, "Already joined this session") ∧
    (postJoin (postJoin demoDb "s1" "u1").1 "s1" "u1").1 = (postJoin demoDb "s1" "u1").1 := by
  decide

/-- Claim C5 amended: the socket level join is idempotent — joining the
same room twice yields the same state as joining once, and a fresh
member appears exactly once — while the HTTP join endpoint leaves the
participant set unchanged on a duplicate join but answers it with a
400 error rather than a silent no-op. -/
theorem join_idempotent (st : RelayState) (c sid : String) (db : DbState) (s uid : String)
    (ha : activeSessionRows db s ≠ [])
    (hp : 0 < (db.participants.filter (fun p => p.1 == s && p.2 == uid)).length) :
    (handleEvent ((handleEvent st c (ClientEvent.joinSession sid)).1) c
        (ClientEvent.joinSession sid)).1 =
      (handleEvent st c (ClientEvent.joinSession sid)).1 ∧
    (c ∉ st.rooms sid →
      (((handleEvent st c (ClientEvent.joinSession sid)).1).rooms sid).count c = 1) ∧
    postJoin db s uid = (db, 400, "Already joined this session") := by
  refine ⟨?_, ?_, ?_⟩
  · show RelayState.mk _ = RelayState.mk _
    apply congrArg RelayState.mk
    funext r
    simp only [joinState_rooms]
    by_cases hr : r = sid
    · simp [hr, joinRoom_idem]
    · simp [hr]
  · intro hnc
    rw [joinState_rooms, if_pos rfl]
    exact count_joinRoom_self c (st.rooms sid) hnc
  · unfold postJoin
    rw [if_neg (fun hh => ha (List.length_eq_zero.mp hh)), if_pos hp]

/-- Claim C5 witness: joining the empty state once puts the member in
once, and the duplicate HTTP join of an existing participant is a 400
with the database unchanged. -/
theorem join_idempotent_witness :
    (((handleEvent (RelayState.mk (fun _ => [])) "c1"
        (ClientEvent.joinSession "sess-1")).1).rooms "sess-1").count "c1" = 1 ∧
    postJoin demoDbJoined "s1" "u1" = (demoDbJoined, 400, "Already joined this session") :=
  ⟨(join_idempotent (RelayState.mk (fun _ => [])) "c1" "sess-1" demoDbJoined "s1" "u1"
      (by decide) (by decide)).2.1 (by decide),
   (join_idempotent (RelayState.mk (fun _ => [])) "c1" "sess-1" demoDbJoined "s1" "u1"
      (by decide) (by decide)).2.2⟩

/-- Claim C6 counterexample: the delivered timestamp is whatever the
sending client put into the payload — 5 when the sender says 5, 7 when
the sender says 7 — so it is taken from the payload of the sender and
not assigned server side at arrival. -/
theorem client_timestamp_cex :
    ((handleEvent demoRooms "c1" (ClientEvent.chatMessage (Payload.mk "sess-1" 5 "hi"))).2.map
      (fun dv => dv.data.timestamp)) = [5] ∧
    ((handleEvent demoRooms "c1" (ClientEvent.chatMessage (Payload.mk "sess-1" 7 "hi"))).2.map
      (fun dv => dv.data.timestamp)) = [7] := by
  decide

/-- Claim C6 amended: every delivery of a rebroadcast event carries the
payload of the sender verbatim, so the delivered timestamp equals the
timestamp the sending client chose; the relay assigns no timestamp of
its own at arrival. -/
theorem delivered_timestamp_is_senders (k : DomainKind) (st : RelayState) (sender : String)
    (d : Payload) (dv : Delivery) (h : dv ∈ (handleEvent st sender (kindEvent k d)).2) :
    dv.data = d ∧ dv.data.timestamp = d.timestamp := by
  rw [handleEvent_kind] at h
  have hd := ((mem_broadcast st sender (kindName k) d dv).mp h).2.2.2
  exact ⟨hd, by rw [hd]⟩

/-- Claim C6 witness: the delivery of the demo payload to c2 carries
the demo payload and its timestamp unchanged. -/
theorem delivered_timestamp_is_senders_witness :
    (Delivery.mk "c2" "chat-message" demoPayload).data = demoPayload ∧
    (Delivery.mk "c2" "chat-message" demoPayload).data.timestamp = demoPayload.timestamp :=
  delivered_timestamp_is_senders DomainKind.chat demoRooms "c1" demoPayload
    (Delivery.mk "c2" "chat-message" demoPayload) (by decide)

/-- Claim C7: the server registers no handler for the typing event, so
an inbound typing event is dropped: no state change and no delivery to
any member of any room, unlike the three rebroadcast kinds. -/
theorem typing_not_relayed (st : RelayState) (sender : String) (d : Payload) :
    handleEvent st sender (ClientEvent.typing d) = (st, []) := rfl

/-- Claim C8: rebroadcast addresses the room named by the sessionId
field of the payload with no membership or authorization check on the
sender: a sender that is in no room at all still causes delivery to
every member of that room. -/
theorem publish_without_membership (k : DomainKind) (st : RelayState) (sender : String)
    (d : Payload) (h : ∀ r, sender ∉ st.rooms r) :
    (handleEvent st sender (kindEvent k d)).2 =
      (st.rooms d.sessionId).map (fun t => Delivery.mk t (kindName k) d) := by
  rw [handleEvent_kind]
  show broadcast st sender (kindName k) d = _
  unfold broadcast
  congr 1
  apply List.filter_eq_self.mpr
  intro a ha
  simp only [bne_iff_ne, ne_eq, decide_eq_true_eq]
  intro hEq
  exact h d.sessionId (hEq ▸ ha)

/-- Claim C8 witness: a connection that never joined any room
broadcasts a chat-message into sess-1 and both members receive it. -/
theorem publish_without_membership_witness :
    (handleEvent demoRooms "intruder" (kindEvent DomainKind.chat demoPayload)).2 =
      [Delivery.mk "c1" "chat-message" demoPayload,
       Delivery.mk "c2" "chat-message" demoPayload] := by
  rw [publish_without_membership DomainKind.chat demoRooms "intruder" demoPayload
    (fun r => by
      simp only [demoRooms]
      by_cases hr : r = "sess-1" <;> simp [hr])]
  decide

/-- Claim C9 counterexample: two external models that answer every
prompt differently give the same generateSummary result, which also
differs from the response of either model, while translateText does
depend on the model — generateSummary is local computation, not a pass
through to the model. -/
theorem summary_not_passthrough_cex :
    generateSummary (fun _ => "RESPONSE A") ["hello world today"] "rolling" =
      generateSummary (fun _ => "RESPONSE B") ["hello world today"] "rolling" ∧
    (generateSummary (fun _ => "RESPONSE A") ["hello world today"] "rolling").content ≠
      "RESPONSE A" ∧
    translateText (fun _ => "RESPONSE A") "hi" "es" "auto" ≠
      translateText (fun _ => "RESPONSE B") "hi" "es" "auto" :=
  ⟨rfl, by decide, by decide⟩

/-- Claim C9 amended: generateSummary computes its result locally from
the transcripts, never consulting the external model: its result is
identical under any two models. The other service operations, such as
translateText, do forward a prompt to the model and return its trimmed
response. -/
theorem generateSummary_model_independent (f g : String → String) (ts : List String)
    (ty : String) : generateSummary f ts ty = generateSummary g ts ty := rfl

/-- Claim C10: for an authorized request on a session with zero stored
transcripts, POST /summaries does not fail: it answers 201 with the
summary row generated from the five built-in mock transcripts and
appends that row to the stored summaries. -/
theorem post_summaries_mock_fallback (model : String → String) (db : DbState)
    (uid sid ty : String) (hacc : accessRows db sid uid ≠ [])
    (hempty : sessionTranscripts db sid = []) :
    mockTranscripts.length = 5 ∧
    (postSummaries model db uid sid ty).2.1 = 201 ∧
    (postSummaries model db uid sid ty).2.2 =
      some (SummaryRow.mk sid ty (generateSummary model mockTranscripts ty).content
        (generateSummary model mockTranscripts ty).keyPoints
        (generateSummary model mockTranscripts ty).actionItems) ∧
    (postSummaries model db uid sid ty).1.summaries =
      db.summaries ++ [SummaryRow.mk sid ty (generateSummary model mockTranscripts ty).content
        (generateSummary model mockTranscripts ty).keyPoints
        (generateSummary model mockTranscripts ty).actionItems] := by
  have hlen : ¬ (accessRows db sid uid).length = 0 :=
    fun hh => hacc (List.length_eq_zero.mp hh)
  unfold postSummaries
  rw [if_neg hlen, hempty]
  exact ⟨rfl, rfl, rfl, rfl⟩

/-- Claim C10 witness: on the demo database (active session s1 hosted
by u1, no transcripts), the endpoint answers 201. -/
theorem post_summaries_mock_fallback_witness :
    (postSummaries (fun _ => "") demoDb "u1" "s1" "rolling").2.1 = 201 :=
  (post_summaries_mock_fallback (fun _ => "") demoDb "u1" "s1" "rolling"
    (by decide) (by decide)).2.1

end VCT
